import Mathlib

/-!
Verification development for the tubesort repository: a shallow embedding of
the server cache routes and key-rotation manager (`src/routes/api.js`), the
client cache/service layer (`services/cache.js`, `services/gemini.js`,
`services/youtube.js`), and the handle-resolution endpoint, together with
proofs settling the specification's claims about them.

Conventions of the embedding:
- JavaScript values travelling through the cache layer are modelled by the
  `Json` inductive (with an extra `date` constructor for BSON dates, since
  the routes store `expiresAt`/`updatedAt` as `Date` objects).
- JavaScript truthiness is modelled by `truthy`.
- Timestamps are naturals counting milliseconds.
- A MongoDB document is an association list of field names to values; the
  backing collection is a list of documents.  `updateOne` with `$set` and
  `upsert: true`, `findOne` with the `$or` liveness filter, and `deleteOne`
  with `$lt` are modelled field-by-field from the route code.
- Asynchronous code is straight-lined: an `await`ed call is ordinary function
  composition, a fire-and-forget promise is an explicit argument carrying its
  eventual outcome, and the unbounded quota-retry recursion is given explicit
  fuel (`none` meaning the computation is still running after that much fuel).
-/

/-! ## Batch dispatcher (`services/gemini.js`, `categorizeVideos`) -/

/-- One classifiable video: a stable identifier plus the title that the
classifier sees.  Mirrors the fields of `globalState.videos` items that
`categorizeVideos` reads. -/
structure Video where
  id : Nat
  title : String
deriving DecidableEq, Repr

/-- One `{category, videos}` group of a chunk's parsed classifier response.
`videos = none` models a `videos` field that is not an array (the code checks
`Array.isArray(categoryObj.videos)`); otherwise it is the list of returned
titles. -/
structure RespGroup where
  category : String
  videos : Option (List String)
deriving DecidableEq, Repr

/-- The constant `BATCH_SIZE = 200` of `categorizeVideos`. -/
def BATCH_SIZE : Nat := 200

/-- The constant `MAX_PARALLEL = 3` of `categorizeVideos` (wave width; it
bounds how many chunk promises are awaited together and does not affect the
merged result, which is accumulated in chunk order). -/
def MAX_PARALLEL : Nat := 3

/-- `Math.ceil(videos.length / BATCH_SIZE)`. -/
def totalBatches (videos : List Video) : Nat :=
  (videos.length + BATCH_SIZE - 1) / BATCH_SIZE

/-- The slice `videos.slice(i * BATCH_SIZE, (i + 1) * BATCH_SIZE)` handed to
chunk `i`'s prompt. -/
def chunkSlice (videos : List Video) (i : Nat) : List Video :=
  (videos.drop (i * BATCH_SIZE)).take BATCH_SIZE

/-- Resolution of a list of returned titles:
`categoryObj.videos.forEach(videoInfo => { const originalVideo =
videos.find(v => v.title === videoInfo.title); if (originalVideo) push; })`.
Note the lookup list is whatever `videos` the caller passes; the source passes
the full global list, not the chunk slice. -/
def resolveTitles (videos : List Video) (titles : List String) : List Video :=
  titles.filterMap (fun t => videos.find? (fun v => v.title == t))

/-- Insertion into a category map (a JS object used as a dictionary, modelled
as an association list in insertion order): create the key on first use, then
push the resolved videos onto its array. -/
def addToCategory (acc : List (String × List Video)) (cat : String)
    (vs : List Video) : List (String × List Video) :=
  if acc.any (fun p => p.fst == cat) then
    acc.map (fun p => if p.fst == cat then (p.fst, p.snd ++ vs) else p)
  else
    acc ++ [(cat, vs)]

/-- A single chunk's `batchCategories`: fold the parsed groups, skipping a
group whose `category` is falsy (empty string) or whose `videos` is not an
array, and resolving each returned title through `videos.find` on the list
`videos` (the source captures the global list here). -/
def chunkCategories (videos : List Video) (resp : List RespGroup) :
    List (String × List Video) :=
  resp.foldl
    (fun acc g =>
      match g.videos with
      | none => acc
      | some titles =>
        if g.category == "" then acc
        else addToCategory acc g.category (resolveTitles videos titles))
    []

/-- The merge step: `allCategories[categoryName].push(...batch)` over the
entries of one chunk's `batchCategories`, in order. -/
def mergeBatch (acc batch : List (String × List Video)) :
    List (String × List Video) :=
  batch.foldl (fun a p => addToCategory a p.fst p.snd) acc

/-- The whole dispatch-and-merge pipeline of `categorizeVideos`, with the
classifier responses supplied as an oracle: `responses.getD i []` is chunk
`i`'s parsed response (`[]` both for a chunk whose response failed to parse —
the code returns `{}` for it — and for a missing entry).  Chunks are merged
in chunk-index order, which is the order `Promise.all` preserves. -/
def categorizeAll (videos : List Video) (responses : List (List RespGroup)) :
    List (String × List Video) :=
  (List.range (totalBatches videos)).foldl
    (fun acc i => mergeBatch acc (chunkCategories videos (responses.getD i [])))
    []

/-- Outcome of the tail of `categorizeVideos` as the user observes it. -/
inductive CategorizeOutcome where
  | displayed (cats : List (String × List Video))
  | errorToast (msg : String)
deriving Repr

/-- Tail of `categorizeVideos` after the merged `allCategories` is built
(lines `if (Object.keys(allCategories).length === 0) throw ...;
await cacheData(...); displayCategories(allCategories);` with the enclosing
`catch` that shows `'Failed to categorize videos: ' + error.message`).
`cacheWrite` is the settled outcome of the awaited `cacheData` call. -/
def categorizeVideosFinish (allCategories : List (String × List Video))
    (cacheWrite : Except String Unit) : CategorizeOutcome :=
  if allCategories.isEmpty then
    .errorToast "Failed to categorize videos: No categories were generated."
  else
    match cacheWrite with
    | .error e => .errorToast ("Failed to categorize videos: " ++ e)
    | .ok _ => .displayed allCategories

/-- Observable outcome of the tail of `loadPlaylistData` after all pages have
been fetched: what got rendered, what the function returns, and what the
fire-and-forget cache write's `.catch` logged. -/
structure PlaylistOutcome where
  rendered : Option (List Video)
  result : Except String Unit
  backgroundLog : Option String
deriving Repr

/-- Tail of `loadPlaylistData` (`if (allVideos.length === 0) throw ...;
setVideos(...); applySortAndRender(); cacheData(...).then(...).catch(err =>
console.error(...))`): the videos are rendered before the cache write is even
started, and the write's failure is only logged by the detached `.catch`.
`cacheWrite` is the eventual outcome of that detached promise. -/
def loadPlaylistDataFinish (allVideos : List Video)
    (cacheWrite : Except String Unit) : PlaylistOutcome :=
  if allVideos.isEmpty then
    { rendered := none
      result := .error "No videos found in this playlist"
      backgroundLog := none }
  else
    { rendered := some allVideos
      result := .ok ()
      backgroundLog :=
        match cacheWrite with
        | .error e => some ("[Cache] Background playlist caching failed: " ++ e)
        | .ok _ => none }

/-! ## JavaScript values and the cache store (`src/routes/api.js`) -/

/-- A JavaScript/BSON value as it travels through the cache routes.  `date`
models a `Date` object (milliseconds since the epoch). -/
inductive Json where
  | null
  | bool (b : Bool)
  | num (n : Int)
  | str (s : String)
  | arr (xs : List Json)
  | obj (fields : List (String × Json))
  | date (ms : Nat)

/-- JavaScript truthiness of a value (`undefined` is modelled by `null`;
arrays and objects are always truthy, even when empty). -/
def truthy : Json → Bool
  | .null => false
  | .bool b => b
  | .num n => n != 0
  | .str s => s != ""
  | .arr _ => true
  | .obj _ => true
  | .date _ => true

/-- Property access `value.field`: field lookup on an object, `undefined`
(modelled as `null`) otherwise. -/
def getField (v : Json) (name : String) : Json :=
  match v with
  | .obj fields =>
    match fields.find? (fun p => p.fst == name) with
    | some p => p.snd
    | none => .null
  | _ => .null

/-- JSON string escaping (backslash and double quote; the payloads in this
development contain no control characters). -/
def escapeString (s : String) : String :=
  String.mk (s.data.foldr
    (fun c acc =>
      if c = '"' then '\\' :: '"' :: acc
      else if c = '\\' then '\\' :: '\\' :: acc
      else c :: acc)
    [])

mutual

/-- `JSON.stringify`, used by the store route only for its `.length` in the
10 MiB size check.  A `date` serialises as a quoted literal (the real
serialiser produces an ISO string; no theorem below stringifies a date). -/
def stringify : Json → String
  | .null => "null"
  | .bool true => "true"
  | .bool false => "false"
  | .num n => toString n
  | .str s => "\"" ++ escapeString s ++ "\""
  | .arr xs => "[" ++ stringifyList xs ++ "]"
  | .obj fs => "\x7b" ++ stringifyFields fs ++ "\x7d"
  | .date ms => "\"" ++ toString ms ++ "\""

/-- Comma-separated serialisation of an array's elements. -/
def stringifyList : List Json → String
  | [] => ""
  | [x] => stringify x
  | x :: y :: xs => stringify x ++ "," ++ stringifyList (y :: xs)

/-- Comma-separated serialisation of an object's fields. -/
def stringifyFields : List (String × Json) → String
  | [] => ""
  | [(k, v)] => "\"" ++ escapeString k ++ "\":" ++ stringify v
  | (k, v) :: f :: fs =>
    "\"" ++ escapeString k ++ "\":" ++ stringify v ++ "," ++ stringifyFields (f :: fs)

end

/-- A MongoDB document: fields in insertion order. -/
abbrev MongoDoc : Type := List (String × Json)

/-- One backing collection of the store: its documents in insertion order. -/
abbrev Store : Type := List MongoDoc

/-- Field read on a document (`null` when absent). -/
def docGet (d : MongoDoc) (name : String) : Json :=
  match d.find? (fun p => p.fst == name) with
  | some p => p.snd
  | none => .null

/-- Field presence on a document (`$exists`). -/
def docHas (d : MongoDoc) (name : String) : Bool :=
  d.any (fun p => p.fst == name)

/-- Setting one field of a document (replace in place, or append). -/
def docSet (d : MongoDoc) (name : String) (v : Json) : MongoDoc :=
  if d.any (fun p => p.fst == name) then
    d.map (fun p => if p.fst == name then (p.fst, v) else p)
  else
    d ++ [(name, v)]

/-- MongoDB `$set` with an update document: each update field is written onto
the existing document; fields of the existing document that the update does
not mention are left in place. -/
def applySet (d upd : MongoDoc) : MongoDoc :=
  upd.foldl (fun acc p => docSet acc p.fst p.snd) d

/-- The match of the filter `{ key }` / `{ key, ... }` against a document:
its `key` field is the given string. -/
def keyMatches (d : MongoDoc) (key : String) : Bool :=
  match docGet d "key" with
  | .str s => s == key
  | _ => false

/-- The liveness filter of the two read routes:
`{ key, $or: [ { expiresAt: { $exists: false } }, { expiresAt: { $gt: now } } ] }`.
`$gt` on a date only matches a stored date (MongoDB comparisons do not match
across BSON types). -/
def liveMatch (key : String) (now : Nat) (d : MongoDoc) : Bool :=
  keyMatches d key &&
    (!docHas d "expiresAt" ||
      (match docGet d "expiresAt" with
       | .date t => now < t
       | _ => false))

/-- `findOne` under the liveness filter. -/
def findOneLive (store : Store) (key : String) (now : Nat) : Option MongoDoc :=
  store.find? (liveMatch key now)

/-- The opportunistic cleanup `deleteOne({ key, expiresAt: { $lt: now } })`:
removes the first document for the key whose `expiresAt` is a date strictly
in the past. -/
def deleteOneExpired (store : Store) (key : String) (now : Nat) : Store :=
  store.eraseP (fun d =>
    keyMatches d key &&
      (match docGet d "expiresAt" with
       | .date t => t < now
       | _ => false))

/-- The collection-name check of `cacheMiddleware` /`getCacheMiddleware`
(`DB_CONFIG.collections[collectionName]` is truthy exactly for the four
configured names). -/
def validCollection (c : String) : Bool :=
  c == "channels" || c == "videos" || c == "categories" || c == "playlists"

/-- `DB_CONFIG.cacheExpiry[collection] || 24`, in hours. -/
def cacheExpiryHours (c : String) : Nat :=
  if c == "channels" then 24
  else if c == "videos" then 12
  else if c == "categories" then 48
  else if c == "playlists" then 24
  else 24

/-- `MAX_DATA_SIZE = 10 * 1024 * 1024` of the store route. -/
def MAX_DATA_SIZE : Nat := 10 * 1024 * 1024

/-- The `dataToReturn` projection of `POST /cache/get`: the four recognised
fields, each included when truthy, in source order. -/
def projectDoc (d : MongoDoc) : Json :=
  .obj
    ((if truthy (docGet d "videos") then [("videos", docGet d "videos")] else []) ++
     (if truthy (docGet d "channelId") then [("channelId", docGet d "channelId")] else []) ++
     (if truthy (docGet d "uploadsPlaylistId") then
        [("uploadsPlaylistId", docGet d "uploadsPlaylistId")] else []) ++
     (if truthy (docGet d "categories") then [("categories", docGet d "categories")] else []))

/-- Response of a cache read route. -/
inductive GetResponse where
  | badRequest (msg : String)
  | notFound
  | okData (data : Json)

/-- `POST /cache/get` (and the twin `GET /cache` route, whose filter and 404
branch are identical): middleware collection check, `key` required, one
`findOne` under the liveness filter, opportunistic delete of an expired
record on miss, and the truthy-field projection on hit.  Returns the response
together with the possibly-cleaned store. -/
def routeCacheGet (store : Store) (coll key : String) (now : Nat) :
    GetResponse × Store :=
  if !validCollection coll then
    (.badRequest ("Invalid or missing collection name: " ++ coll), store)
  else if key == "" then
    (.badRequest "Key is required", store)
  else
    match findOneLive store key now with
    | none => (.notFound, deleteOneExpired store key now)
    | some d => (.okData (projectDoc d), store)

/-- Response of the cache store route. -/
inductive PutResponse where
  | badRequest (msg : String)
  | payloadTooLarge
  | ok (operation : String)

/-- The truthy-field projection `if (data.videos) cacheDoc.videos = ...` etc.
of the store route, producing the payload part of `cacheDoc` in source
order. -/
def serverProjectFields (data : Json) : List (String × Json) :=
  (if truthy (getField data "videos") then [("videos", getField data "videos")] else []) ++
  (if truthy (getField data "channelId") then [("channelId", getField data "channelId")] else []) ++
  (if truthy (getField data "uploadsPlaylistId") then
     [("uploadsPlaylistId", getField data "uploadsPlaylistId")] else []) ++
  (if truthy (getField data "categories") then [("categories", getField data "categories")] else [])

/-- `updateOne({ key }, { $set: cacheDoc }, { upsert: true })`: `$set` onto
the first document whose `key` field matches (answering `"updated"`), or an
insert of the update document itself (answering `"inserted"`). -/
def updateOneUpsert (store : Store) (key : String) (upd : MongoDoc) :
    String × Store :=
  if store.any (fun d => keyMatches d key) then
    ("updated",
     store.map (fun d => if keyMatches d key then applySet d upd else d))
  else
    ("inserted", store ++ [upd])

/-- `POST /cache`: middleware collection check, required fields, the 10 MiB
`JSON.stringify` size ceiling (checked before anything is written), expiry
computation `now + cacheExpiry[collection] hours`, assembly of `cacheDoc`,
and the upsert.  The retry loop around `updateOne` re-runs the same pure
upsert, so its result equals a single attempt. -/
def routeCachePost (store : Store) (coll key : String) (data : Json)
    (now : Nat) : PutResponse × Store :=
  if !validCollection coll then
    (.badRequest ("Invalid or missing collection name: " ++ coll), store)
  else if key == "" || !truthy data || coll == "" then
    (.badRequest "Key, data, and collection are required", store)
  else if MAX_DATA_SIZE < (stringify data).length then
    (.payloadTooLarge, store)
  else
    let expiresAt := now + cacheExpiryHours coll * 3600000
    let cacheDoc : MongoDoc :=
      [("key", .str key), ("collection", .str coll), ("expiresAt", .date expiresAt),
       ("updatedAt", .date now), ("cacheVersion", .str "1.0")] ++
      serverProjectFields data
    let r := updateOneUpsert store key cacheDoc
    (.ok r.fst, r.snd)

/-! ## Client cache layer (`services/cache.js`, `cacheData`) -/

/-- What a call to the client-side `cacheData` helper settles to. -/
inductive ClientCacheResult where
  | validationError (msg : String)
  | serverFailure (msg : String)
  | ok

/-- The `validatedData` projection of `cacheData`: `videos` only when it is
an array, `channelId` / `uploadsPlaylistId` when truthy, `categories` when
truthy and of `typeof 'object'` (array, object or date). -/
def clientValidate (data : Json) : Json :=
  .obj
    ((match getField data "videos" with
      | .arr xs => [("videos", Json.arr xs)]
      | _ => []) ++
     (if truthy (getField data "channelId") then
        [("channelId", getField data "channelId")] else []) ++
     (if truthy (getField data "uploadsPlaylistId") then
        [("uploadsPlaylistId", getField data "uploadsPlaylistId")] else []) ++
     (if truthy (getField data "categories")
         && (match getField data "categories" with
             | .arr _ => true | .obj _ => true | .date _ => true | _ => false) then
        [("categories", getField data "categories")] else []))

/-- The client `cacheData(key, data, collection)` pipeline: throw when key or
data is falsy, project `validatedData`, throw `'No valid data to cache'` when
nothing survives the projection (no request is issued), otherwise POST the
projected payload to `/api/cache`.  The retry loop re-issues the same request
against the same (pure) route, and a failed route call leaves the store
unchanged, so three attempts settle exactly like one. -/
def cacheDataClient (key : String) (data : Json) (coll : String)
    (store : Store) (now : Nat) : ClientCacheResult × Store :=
  if key == "" || !truthy data then
    (.validationError "Key and data are required for caching", store)
  else
    match clientValidate data with
    | .obj [] => (.validationError "No valid data to cache", store)
    | vd =>
      match routeCachePost store coll key vd now with
      | (.ok _, store') => (.ok, store')
      | (.badRequest m, store') => (.serverFailure m, store')
      | (.payloadTooLarge, store') => (.serverFailure "Payload too large", store')

/-! ## Key rotation (`src/routes/api.js`, `rotateYoutubeKey`) and the
client quota-retry loop (`services/youtube.js`) -/

/-- The mutable `keyUsageTracking.youtube` record: current index plus the two
per-index `Map`s (association lists on key indices, values in epoch
milliseconds / counts). -/
structure YoutubeTracking where
  currentKeyIndex : Nat
  quotaResets : List (Nat × Nat)
  usageCount : List (Nat × Nat)
deriving DecidableEq, Repr

/-- `Map.get`. -/
def mapGet (m : List (Nat × Nat)) (k : Nat) : Option Nat :=
  (m.find? (fun p => p.fst == k)).map (fun p => p.snd)

/-- `Map.set`. -/
def mapSet (m : List (Nat × Nat)) (k v : Nat) : List (Nat × Nat) :=
  if m.any (fun p => p.fst == k) then
    m.map (fun p => if p.fst == k then (p.fst, v) else p)
  else
    m ++ [(k, v)]

/-- `rotateYoutubeKey`: the body of the critical section.  Throws
`'No YouTube API keys available'` on an empty pool; otherwise advances
`currentKeyIndex = (currentKeyIndex + 1) % keys.length`, applies the 24-hour
usage reset to the new index, and returns the new current key.  The
`keyRotationLock` busy-wait serialises callers; the body contains no `await`,
so each locked section is atomic and concurrent calls execute one after
another (each performing its own advance). -/
def rotateYoutubeKey (keys : List String) (now : Nat) (st : YoutubeTracking) :
    Except String (String × YoutubeTracking) :=
  if keys.isEmpty then
    .error "No YouTube API keys available"
  else
    let newIndex := (st.currentKeyIndex + 1) % keys.length
    let st1 : YoutubeTracking := { st with currentKeyIndex := newIndex }
    let st2 : YoutubeTracking :=
      match mapGet st1.quotaResets newIndex with
      | some lastReset =>
        if lastReset + 24 * 60 * 60 * 1000 ≤ now then
          { st1 with
            usageCount := mapSet st1.usageCount newIndex 0
            quotaResets := mapSet st1.quotaResets newIndex now }
        else st1
      | none => st1
    .ok (keys.getD newIndex "", st2)

/-- `n` serialized executions of the rotation critical section (the order in
which the event loop runs `n` callers of `rotateYoutubeKey`), keeping the
final tracking state. -/
def rotateTimesState (keys : List String) (now : Nat) :
    Nat → YoutubeTracking → Except String YoutubeTracking
  | 0, st => .ok st
  | n + 1, st =>
    match rotateYoutubeKey keys now st with
    | .error e => .error e
    | .ok (_, st') => rotateTimesState keys now n st'

/-- Upstream outcome of one attempt of a client fetch (`getChannelDetails`
and its siblings): success, an error whose message contains `'quota'`, or any
other failure. -/
inductive FetchOutcome where
  | success
  | quotaError
  | otherError (msg : String)

/-- The client `getChannelDetails` recursion with explicit fuel.  `oracle n`
is the upstream outcome of attempt `n`.  On a quota error the client calls
`POST /rotate-key` (the server runs `rotateYoutubeKey`; a server failure
makes the client's `rotateApiKey` throw `'Failed to rotate API key'`, which
propagates) and then retries itself unconditionally — there is no wrap-around
detection.  `none` means the recursion is still running after `fuel`
attempts. -/
def getChannelDetailsFuel (oracle : Nat → FetchOutcome) (keys : List String)
    (now : Nat) : Nat → Nat → YoutubeTracking → Option (Except String Unit)
  | 0, _, _ => none
  | fuel + 1, attempt, st =>
    match oracle attempt with
    | .success => some (.ok ())
    | .otherError _ =>
      some (.error "Failed to load channel details. Please try again.")
    | .quotaError =>
      match rotateYoutubeKey keys now st with
      | .error _ => some (.error "Failed to rotate API key")
      | .ok (_, st') => getChannelDetailsFuel oracle keys now fuel (attempt + 1) st'

/-! ## Handle resolution (`GET /resolve-handle`) -/

/-- The whitespace characters stripped by `String.prototype.trim` (the ASCII
ones; the handles below contain none of the further Unicode space
separators). -/
def isJsWs (c : Char) : Bool :=
  c == ' ' || c == '\t' || c == '\n' || c == '\r' ||
    c == Char.ofNat 11 || c == Char.ofNat 12

/-- Dropping leading whitespace. -/
def dropLeadingWs : List Char → List Char
  | [] => []
  | c :: cs => if isJsWs c then dropLeadingWs cs else c :: cs

/-- `String.prototype.trim`: strip whitespace from both ends. -/
def jsTrim (s : List Char) : List Char :=
  (dropLeadingWs (dropLeadingWs s).reverse).reverse

/-- `handle.replace('@', '')`: a string pattern replaces only the first
occurrence. -/
def removeFirstChar (c : Char) : List Char → List Char
  | [] => []
  | x :: xs => if x == c then xs else x :: removeFirstChar c xs

/-- Membership in the character class `[a-zA-Z0-9_-]`. -/
def isHandleChar (c : Char) : Bool :=
  ('a' ≤ c && c ≤ 'z') || ('A' ≤ c && c ≤ 'Z') || ('0' ≤ c && c ≤ '9') ||
    c == '_' || c == '-'

/-- The test `/^[a-zA-Z0-9_-]{1,100}$/.test(cleanHandle)`. -/
def validHandle (s : List Char) : Bool :=
  s.all isHandleChar && 1 ≤ s.length && s.length ≤ 100

/-- What the `/resolve-handle` route does before any response arrives: either
answer 400 immediately, or issue `https.get` on a URL. -/
inductive ResolveAction where
  | badRequest
  | fetchUrl (url : List Char)
deriving DecidableEq, Repr

/-- The base of the fetched URL. -/
def resolveUrlBase : List Char := "https://www.youtube.com/@".toList

/-- The decision logic of `GET /resolve-handle` (lines up to the `https.get`
call): 400 when the handle is missing, otherwise
`cleanHandle = handle.replace('@', '').trim()`, 400 when `cleanHandle` fails
the pattern, and only otherwise the outbound request to
`https://www.youtube.com/@` + `cleanHandle`. -/
def resolveHandleAction (handle : List Char) : ResolveAction :=
  if handle.isEmpty then .badRequest
  else
    let cleanHandle := jsTrim (removeFirstChar '@' handle)
    if validHandle cleanHandle then .fetchUrl (resolveUrlBase ++ cleanHandle)
    else .badRequest

/-! ## Helper lemmas: key rotation -/

/-- A rotation on a non-empty pool succeeds and advances the index by one
modulo the pool size. -/
theorem rotate_advances (keys : List String) (now : Nat) (st : YoutubeTracking)
    (h : keys ≠ []) :
    ∃ k st2, rotateYoutubeKey keys now st = .ok (k, st2) ∧
      st2.currentKeyIndex = (st.currentKeyIndex + 1) % keys.length := by
  cases keys with
  | nil => exact absurd rfl h
  | cons a as =>
    refine ⟨_, _, rfl, ?_⟩
    dsimp only [rotateYoutubeKey]
    split
    · split
      · rfl
      · rfl
    · rfl

/-- Index after `n + 1` serialized rotations on a non-empty pool. -/
theorem rotateTimesState_index (keys : List String) (now : Nat)
    (h : keys ≠ []) :
    ∀ (n : Nat) (st : YoutubeTracking), ∃ st2,
      rotateTimesState keys now (n + 1) st = .ok st2 ∧
      st2.currentKeyIndex = (st.currentKeyIndex + (n + 1)) % keys.length := by
  intro n
  induction n with
  | zero =>
    intro st
    obtain ⟨k, st2, hr, hi⟩ := rotate_advances keys now st h
    exact ⟨st2, by simp [rotateTimesState, hr], hi⟩
  | succ m ih =>
    intro st
    obtain ⟨k, st2, hr, hi⟩ := rotate_advances keys now st h
    obtain ⟨st3, hr3, hi3⟩ := ih st2
    refine ⟨st3, ?_, ?_⟩
    · simp [rotateTimesState, hr]
      exact hr3
    · rw [hi3, hi, Nat.mod_add_mod]
      have harith : st.currentKeyIndex + 1 + (m + 1) =
          st.currentKeyIndex + (m + 1 + 1) := by omega
      rw [harith]

/-! ## C9 -/

/-- C9: each successful `rotateYoutubeKey` on a non-empty pool advances
`currentKeyIndex` by exactly one modulo the pool size; `N` rotations with
`N = keys.length` return `currentKeyIndex` to its original (in-range) value;
and rotation on an empty pool fails with the no-keys-configured error. -/
theorem c9_rotation_algebra (keys : List String) (now : Nat)
    (st : YoutubeTracking) :
    (keys = [] →
      rotateYoutubeKey keys now st = .error "No YouTube API keys available")
    ∧ (keys ≠ [] → ∃ k st2, rotateYoutubeKey keys now st = .ok (k, st2) ∧
        st2.currentKeyIndex = (st.currentKeyIndex + 1) % keys.length)
    ∧ (keys ≠ [] → st.currentKeyIndex < keys.length → ∃ st2,
        rotateTimesState keys now keys.length st = .ok st2 ∧
        st2.currentKeyIndex = st.currentKeyIndex) := by
  refine ⟨?_, ?_, ?_⟩
  · intro h
    subst h
    rfl
  · intro h
    exact rotate_advances keys now st h
  · intro h hlt
    cases hk : keys.length with
    | zero =>
      cases keys with
      | nil => exact absurd rfl h
      | cons a as => simp at hk
    | succ m =>
      obtain ⟨st2, hr, hi⟩ := rotateTimesState_index keys now h m st
      refine ⟨st2, hr, ?_⟩
      rw [hi, hk, Nat.add_mod_right]
      exact Nat.mod_eq_of_lt (hk ▸ hlt)

/-- Witness for `c9_rotation_algebra` at concrete pools: the empty pool
errors, one rotation on a two-key pool moves the index to `1 % 2`, and two
rotations return it to `0`. -/
theorem c9_rotation_algebra_witness :
    rotateYoutubeKey [] 0 ⟨0, [], []⟩ = .error "No YouTube API keys available"
    ∧ (∃ k st2, rotateYoutubeKey ["a", "b"] 0 ⟨0, [], []⟩ = .ok (k, st2) ∧
        st2.currentKeyIndex = (0 + 1) % 2)
    ∧ (∃ st2, rotateTimesState ["a", "b"] 0 2 ⟨0, [], []⟩ = .ok st2 ∧
        st2.currentKeyIndex = 0) :=
  ⟨(c9_rotation_algebra [] 0 ⟨0, [], []⟩).1 rfl,
   (c9_rotation_algebra ["a", "b"] 0 ⟨0, [], []⟩).2.1 (by decide),
   (c9_rotation_algebra ["a", "b"] 0 ⟨0, [], []⟩).2.2 (by decide) (by decide)⟩

/-! ## C3 -/

/-- C3 counterexample: two callers of `rotateYoutubeKey` arriving in the same
window are serialized by the `keyRotationLock` busy-wait (the locked body
contains no `await`, so each runs atomically and one of them runs first), and
each performs its own advance: on a 3-key pool starting at index 0 the first
caller observes `k1`, the second caller observes `k2`, and the index has
advanced twice in total — not once, and the callers do not observe the same
credential. -/
theorem c3_rotation_counterexample :
    rotateYoutubeKey ["k0", "k1", "k2"] 0 ⟨0, [], []⟩ = .ok ("k1", ⟨1, [], []⟩)
    ∧ rotateYoutubeKey ["k0", "k1", "k2"] 0 ⟨1, [], []⟩ = .ok ("k2", ⟨2, [], []⟩)
    ∧ ("k1" : String) ≠ "k2" :=
  ⟨rfl, rfl, by decide⟩

/-- C3 amended: concurrent callers of `rotate` serialize behind the lock and
each performs its own advance — `n + 1` callers arriving in one window
advance `currentKeyIndex` by `n + 1` modulo the pool size (rotation is
cumulative per caller, not collapsed to a single advance). -/
theorem c3_rotation_cumulative_per_caller (keys : List String) (now : Nat)
    (st : YoutubeTracking) (n : Nat) (h : keys ≠ []) :
    ∃ st2, rotateTimesState keys now (n + 1) st = .ok st2 ∧
      st2.currentKeyIndex = (st.currentKeyIndex + (n + 1)) % keys.length :=
  rotateTimesState_index keys now h n st

/-- Witness for `c3_rotation_cumulative_per_caller`: two serialized callers
on a 3-key pool advance the index from 0 to 2. -/
theorem c3_rotation_cumulative_per_caller_witness :
    ∃ st2, rotateTimesState ["k0", "k1", "k2"] 0 2 ⟨0, [], []⟩ = .ok st2 ∧
      st2.currentKeyIndex = (0 + 2) % 3 :=
  c3_rotation_cumulative_per_caller ["k0", "k1", "k2"] 0 ⟨0, [], []⟩ 1 (by decide)

/-! ## C2 -/

/-- C2: when every attempt reports a quota error, the client
`getChannelDetails` loop never terminates on a non-empty key pool: each
attempt rotates (the server rotation always succeeds when keys exist, even
after a full wrap-around) and recurses, so for every amount of fuel the
computation is still running (`none`) — it never produces an
exhausted-quota error, contradicting the specified termination after at most
one wrap-around of the pool. -/
theorem c2_quota_retry_never_terminates (keys : List String) (now : Nat)
    (h : keys ≠ []) :
    ∀ (fuel attempt : Nat) (st : YoutubeTracking),
      getChannelDetailsFuel (fun _ => .quotaError) keys now fuel attempt st =
        none := by
  intro fuel
  induction fuel with
  | zero =>
    intro attempt st
    rfl
  | succ m ih =>
    intro attempt st
    obtain ⟨k, st2, hr, _⟩ := rotate_advances keys now st h
    simp only [getChannelDetailsFuel, hr]
    exact ih (attempt + 1) st2

/-- Witness for `c2_quota_retry_never_terminates`: with the 5-key pool of
the configuration and every attempt answering quota exceeded, the client is
still retrying after 6 attempts — the attempt after one full wrap-around —
instead of failing with an exhausted-quota error. -/
theorem c2_quota_retry_never_terminates_witness :
    (["a", "b", "c", "d", "e"] : List String) ≠ [] ∧
    getChannelDetailsFuel (fun _ => .quotaError) ["a", "b", "c", "d", "e"] 0
      6 0 ⟨0, [], []⟩ = none :=
  ⟨by decide,
   c2_quota_retry_never_terminates ["a", "b", "c", "d", "e"] 0 (by decide)
     6 0 ⟨0, [], []⟩⟩

/-! ## C4 -/

/-- C4 counterexample: in `categorizeVideos` the cache write is `await`ed
before `displayCategories` runs, inside the `try`; when the write fails after
its retries, the catch block surfaces a categorization failure and the
already-computed categories are never displayed — the store error is not
merely logged. -/
theorem c4_cache_write_failure_counterexample :
    categorizeVideosFinish [("cat", [⟨0, "A"⟩])] (.error "db down") =
      .errorToast "Failed to categorize videos: db down" := rfl

/-- C4 amended: in the background-cached fetch paths the claim holds — 
`loadPlaylistData` renders the fetched videos and returns success before the
detached cache write settles, whatever that write's outcome, its failure
being only logged — but in `categorizeVideos` the awaited cache write's
failure aborts the request and surfaces as a categorization error. -/
theorem c4_background_write_logged_awaited_write_surfaces
    (videos : List Video) (cats : List (String × List Video))
    (cw : Except String Unit) (e : String)
    (hv : videos ≠ []) (hc : cats ≠ []) :
    (loadPlaylistDataFinish videos cw).rendered = some videos
    ∧ (loadPlaylistDataFinish videos cw).result = .ok ()
    ∧ categorizeVideosFinish cats (.error e) =
        .errorToast ("Failed to categorize videos: " ++ e) := by
  cases videos with
  | nil => exact absurd rfl hv
  | cons a as =>
    cases cats with
    | nil => exact absurd rfl hc
    | cons c cs => exact ⟨rfl, rfl, rfl⟩

/-- Witness for `c4_background_write_logged_awaited_write_surfaces` at a
one-video playlist and a one-category result with a failing store. -/
theorem c4_background_write_logged_awaited_write_surfaces_witness :
    (loadPlaylistDataFinish [⟨1, "t"⟩] (.error "db down")).rendered =
        some [⟨1, "t"⟩]
    ∧ (loadPlaylistDataFinish [⟨1, "t"⟩] (.error "db down")).result = .ok ()
    ∧ categorizeVideosFinish [("c", [⟨1, "t"⟩])] (.error "db down") =
        .errorToast ("Failed to categorize videos: " ++ "db down") :=
  c4_background_write_logged_awaited_write_surfaces [⟨1, "t"⟩]
    [("c", [⟨1, "t"⟩])] (.error "db down") "db down" (by decide) (by decide)

/-! ## Helper lemmas: batch dispatcher resolution -/

/-- Every category list produced by the dispatcher consists of videos that
are the first title match in the lookup list. -/
def resolvedFromGlobal (videos : List Video)
    (cats : List (String × List Video)) : Prop :=
  ∀ p ∈ cats, ∀ v ∈ p.snd,
    videos.find? (fun w => w.title == v.title) = some v

/-- A video found by title is the first video carrying its own title. -/
theorem find_title_self {videos : List Video} {t : String} {v : Video}
    (h : videos.find? (fun w => w.title == t) = some v) :
    videos.find? (fun w => w.title == v.title) = some v := by
  have hp := List.find?_some h
  have ht : v.title = t := by simpa using hp
  rw [ht]
  exact h

/-- Every video produced by `resolveTitles` is a first title match. -/
theorem resolveTitles_resolved (videos : List Video) (ts : List String) :
    ∀ v ∈ resolveTitles videos ts,
      videos.find? (fun w => w.title == v.title) = some v := by
  intro v hv
  rw [resolveTitles, List.mem_filterMap] at hv
  obtain ⟨t, _, ht⟩ := hv
  exact find_title_self ht

/-- `addToCategory` preserves the resolution invariant. -/
theorem resolvedFromGlobal_addToCategory {videos : List Video}
    {acc : List (String × List Video)} {cat : String} {vs : List Video}
    (hacc : resolvedFromGlobal videos acc)
    (hvs : ∀ v ∈ vs, videos.find? (fun w => w.title == v.title) = some v) :
    resolvedFromGlobal videos (addToCategory acc cat vs) := by
  intro p hp v hv
  unfold addToCategory at hp
  split at hp
  · obtain ⟨q, hq, hpq⟩ := List.mem_map.mp hp
    by_cases hc : q.fst == cat
    · rw [if_pos hc] at hpq
      subst hpq
      rcases List.mem_append.mp hv with h1 | h2
      · exact hacc q hq v h1
      · exact hvs v h2
    · rw [if_neg hc] at hpq
      subst hpq
      exact hacc q hq v hv
  · rcases List.mem_append.mp hp with h1 | h2
    · exact hacc p h1 v hv
    · rw [List.mem_singleton] at h2
      subst h2
      exact hvs v hv
/-- A chunk's `batchCategories` satisfies the resolution invariant with
respect to the lookup list it was built from. -/
theorem resolvedFromGlobal_chunkCategories (videos : List Video)
    (resp : List RespGroup) :
    resolvedFromGlobal videos (chunkCategories videos resp) := by
  unfold chunkCategories
  have hgen : ∀ (rs : List RespGroup) (acc : List (String × List Video)),
      resolvedFromGlobal videos acc →
      resolvedFromGlobal videos (rs.foldl
        (fun acc g =>
          match g.videos with
          | none => acc
          | some titles =>
            if g.category == "" then acc
            else addToCategory acc g.category (resolveTitles videos titles))
        acc) := by
    intro rs
    induction rs with
    | nil => intro acc h; exact h
    | cons g gs ih =>
      intro acc h
      simp only [List.foldl_cons]
      apply ih
      cases hg : g.videos with
      | none => exact h
      | some titles =>
        dsimp only
        by_cases hc : (g.category == "") = true
        · rw [if_pos hc]
          exact h
        · rw [if_neg hc]
          exact resolvedFromGlobal_addToCategory h
            (resolveTitles_resolved videos titles)
  exact hgen resp [] (fun p hp => absurd hp (List.not_mem_nil p))

/-- `mergeBatch` preserves the resolution invariant. -/
theorem resolvedFromGlobal_mergeBatch {videos : List Video}
    {acc batch : List (String × List Video)}
    (h1 : resolvedFromGlobal videos acc)
    (h2 : resolvedFromGlobal videos batch) :
    resolvedFromGlobal videos (mergeBatch acc batch) := by
  unfold mergeBatch
  have hgen : ∀ (bs : List (String × List Video))
      (acc : List (String × List Video)),
      resolvedFromGlobal videos acc →
      (∀ p ∈ bs, ∀ v ∈ p.snd,
        videos.find? (fun w => w.title == v.title) = some v) →
      resolvedFromGlobal videos
        (bs.foldl (fun a p => addToCategory a p.fst p.snd) acc) := by
    intro bs
    induction bs with
    | nil => intro acc h _; exact h
    | cons p ps ih =>
      intro acc h hb
      simp only [List.foldl_cons]
      exact ih _
        (resolvedFromGlobal_addToCategory h (hb p (List.mem_cons_self p ps)))
        (fun q hq => hb q (List.mem_cons_of_mem p hq))
  exact hgen batch acc h1 h2

/-- The merged `allCategories` of the whole pipeline satisfies the
resolution invariant with respect to the global input list. -/
theorem resolvedFromGlobal_categorizeAll (videos : List Video)
    (responses : List (List RespGroup)) :
    resolvedFromGlobal videos (categorizeAll videos responses) := by
  unfold categorizeAll
  have hgen : ∀ (is : List Nat) (acc : List (String × List Video)),
      resolvedFromGlobal videos acc →
      resolvedFromGlobal videos (is.foldl
        (fun acc i =>
          mergeBatch acc (chunkCategories videos (responses.getD i [])))
        acc) := by
    intro is
    induction is with
    | nil => intro acc h; exact h
    | cons i js ih =>
      intro acc h
      exact ih _ (resolvedFromGlobal_mergeBatch h
        (resolvedFromGlobal_chunkCategories videos (responses.getD i [])))
  exact hgen _ [] (fun p hp => absurd hp (List.not_mem_nil p))

/-! ## C1 -/

/-- An input list long enough for two chunks (201 videos, `BATCH_SIZE = 200`)
in which the first video of chunk 0 and the only video of chunk 1 share the
title `"A"`. -/
def dupTitleVideos : List Video :=
  (List.range 201).map (fun i => ⟨i, if i % 200 == 0 then "A" else "B"⟩)

set_option maxRecDepth 100000 in
/-- C1 counterexample: chunk 1's response labels the title `"A"`, whose only
occurrence inside chunk 1's own slice is video 200, yet the dispatcher
resolves it against the global input list and returns video 0 — a video from
a different chunk.  Titles are therefore not resolved within the chunk's own
item slice, and two distinct videos sharing a title in different chunks are
confused with each other. -/
theorem c1_chunk_resolution_counterexample :
    categorizeAll dupTitleVideos [[], [⟨"cat", some ["A"]⟩]] =
      [("cat", [⟨0, "A"⟩])]
    ∧ (⟨0, "A"⟩ : Video) ∉ chunkSlice dupTitleVideos 1
    ∧ (⟨200, "A"⟩ : Video) ∈ chunkSlice dupTitleVideos 1 := by decide

/-- C1 amended: every title returned by any chunk's classification call is
resolved by exact title match against the global input list — each resolved
video is the first video of the whole input carrying that title — so a title
returned by one chunk may resolve to a same-titled video living in a
different chunk. -/
theorem c1_resolution_is_global_first_match (videos : List Video)
    (responses : List (List RespGroup)) (cat : String) (vs : List Video)
    (v : Video) (hmem : (cat, vs) ∈ categorizeAll videos responses)
    (hv : v ∈ vs) :
    videos.find? (fun w => w.title == v.title) = some v :=
  resolvedFromGlobal_categorizeAll videos responses (cat, vs) hmem v hv

/-- Witness for `c1_resolution_is_global_first_match` on a one-chunk run. -/
theorem c1_resolution_is_global_first_match_witness :
    ([⟨7, "A"⟩] : List Video).find? (fun w => w.title == (⟨7, "A"⟩ : Video).title) =
      some ⟨7, "A"⟩ :=
  c1_resolution_is_global_first_match [⟨7, "A"⟩] [[⟨"c", some ["A"]⟩]]
    "c" [⟨7, "A"⟩] ⟨7, "A"⟩ (by decide) (by decide)

/-! ## C5 -/

set_option maxRecDepth 100000 in
/-- C5 counterexample: two chunks each return the shared title `"A"`; both
resolve to the globally first video 0, which therefore appears twice in the
merged results-by-category mapping (once under each category) — the merged
mapping is not duplicate-free across chunks. -/
theorem c5_duplicate_across_chunks_counterexample :
    (((categorizeAll dupTitleVideos
        [[⟨"cat0", some ["A"]⟩], [⟨"cat1", some ["A"]⟩]]).map
      Prod.snd).flatten).count ⟨0, "A"⟩ = 2 := by decide

/-- C5 amended: the discard half of the claim holds — a returned title that
matches no input item contributes nothing, so every video in the merged
mapping is an element of the input list (nothing is fabricated) — but an
input item may appear more than once across categories and chunks when its
title is returned several times. -/
theorem c5_no_fabricated_results (videos : List Video)
    (responses : List (List RespGroup)) (cat : String) (vs : List Video)
    (v : Video) (hmem : (cat, vs) ∈ categorizeAll videos responses)
    (hv : v ∈ vs) :
    v ∈ videos :=
  List.mem_of_find?_eq_some
    (resolvedFromGlobal_categorizeAll videos responses (cat, vs) hmem v hv)

/-- Witness for `c5_no_fabricated_results`: the one resolved video of a small
run is an input video, while the unmatched title `"Z"` of the same response
produced no entry. -/
theorem c5_no_fabricated_results_witness :
    (⟨3, "T"⟩ : Video) ∈ ([⟨3, "T"⟩, ⟨4, "U"⟩] : List Video) :=
  c5_no_fabricated_results [⟨3, "T"⟩, ⟨4, "U"⟩] [[⟨"c", some ["T", "Z"]⟩]]
    "c" [⟨3, "T"⟩] ⟨3, "T"⟩ (by decide) (by decide)

/-! ## Helper lemmas: cache store -/

/-- A document whose read-out `expiresAt` is a date has the field present. -/
theorem docHas_of_docGet_date {d : MongoDoc} {name : String} {t : Nat}
    (h : docGet d name = .date t) : docHas d name = true := by
  unfold docGet at h
  cases hf : d.find? (fun p => p.fst == name) with
  | none =>
    rw [hf] at h
    cases h
  | some p =>
    unfold docHas
    rw [List.any_eq_true]
    exact ⟨p, List.mem_of_find?_eq_some hf, by simpa using List.find?_some hf⟩

/-! ## C6 -/

/-- C6: when every record stored under a key carries an `expiresAt` date
lying strictly in the past, the read route answers not-found — and answers
exactly what it would answer had no record for the key ever existed (the
store with all records for the key removed) — because liveness is decided by
the single conditional query `key` and (`expiresAt` absent or greater than
now).  This holds for every store, in particular whether or not a sweep or
the opportunistic delete has already removed the expired records. -/
theorem c6_expired_equals_absent (store : Store) (coll key : String)
    (now : Nat) (hcoll : validCollection coll = true) (hkey : key ≠ "")
    (hexp : ∀ d ∈ store, keyMatches d key = true →
      ∃ t, docGet d "expiresAt" = .date t ∧ t < now) :
    (routeCacheGet store coll key now).fst = .notFound
    ∧ (routeCacheGet store coll key now).fst =
        (routeCacheGet (store.filter (fun d => !keyMatches d key))
          coll key now).fst := by
  have hkey2 : (key == "") = false := by
    simpa using hkey
  have hlive : ∀ d ∈ store, liveMatch key now d = false := by
    intro d hd
    unfold liveMatch
    by_cases hk : keyMatches d key = true
    · obtain ⟨t, hg, ht⟩ := hexp d hd hk
      rw [hk, docHas_of_docGet_date hg, hg]
      simp only [Bool.true_and, Bool.not_true, Bool.false_or]
      simpa using Nat.not_lt.mpr (Nat.le_of_lt ht)
    · rw [Bool.not_eq_true] at hk
      rw [hk]
      rfl
  have hnone : findOneLive store key now = none := by
    unfold findOneLive
    rw [List.find?_eq_none]
    intro d hd
    rw [hlive d hd]
    exact Bool.false_ne_true
  have hnone2 : findOneLive (store.filter (fun d => !keyMatches d key))
      key now = none := by
    unfold findOneLive
    rw [List.find?_eq_none]
    intro d hd
    obtain ⟨hmem, hfk⟩ := List.mem_filter.mp hd
    unfold liveMatch
    rw [show keyMatches d key = false by simpa using hfk]
    exact Bool.false_ne_true
  constructor
  · unfold routeCacheGet
    rw [hcoll, hkey2, hnone]
    simp
  · unfold routeCacheGet
    rw [hcoll, hkey2, hnone, hnone2]
    simp

/-- Witness for `c6_expired_equals_absent`: a store holding exactly one
record for key `k`, expired at time 5, queried at time 10. -/
theorem c6_expired_equals_absent_witness :
    (routeCacheGet [[("key", Json.str "k"), ("expiresAt", Json.date 5)]]
        "videos" "k" 10).fst = .notFound
    ∧ (routeCacheGet [[("key", Json.str "k"), ("expiresAt", Json.date 5)]]
        "videos" "k" 10).fst =
      (routeCacheGet
        (([[("key", Json.str "k"), ("expiresAt", Json.date 5)]] : Store).filter
          (fun d => !keyMatches d "k")) "videos" "k" 10).fst :=
  c6_expired_equals_absent [[("key", Json.str "k"), ("expiresAt", Json.date 5)]]
    "videos" "k" 10 (by decide) (by decide)
    (by
      intro d hd _
      rw [List.mem_singleton] at hd
      subst hd
      exact ⟨5, rfl, by decide⟩)

/-! ## C7 -/

/-- C7 counterexample, refuting exactness of the round trip in two ways.
First: the upsert uses `$set`, which merges fields instead of replacing the
document, so a put of `{videos: ["v"]}` over an existing record that carried
`channelId: "c"` is answered `ok`, yet the immediate get returns
`{videos: ["v"], channelId: "c"}` — not the payload just written.  Second: a
put whose only recognized field has a falsy value (`channelId: ""`) succeeds
(`inserted`), yet the immediate get returns the empty object. -/
theorem c7_roundtrip_counterexample :
    (routeCachePost
        [[("key", Json.str "k"), ("collection", Json.str "channels"),
          ("expiresAt", Json.date 999999999999), ("channelId", Json.str "c")]]
        "channels" "k" (.obj [("videos", .arr [.str "v"])]) 0).fst =
      .ok "updated"
    ∧ (routeCacheGet
        (routeCachePost
          [[("key", Json.str "k"), ("collection", Json.str "channels"),
            ("expiresAt", Json.date 999999999999), ("channelId", Json.str "c")]]
          "channels" "k" (.obj [("videos", .arr [.str "v"])]) 0).snd
        "channels" "k" 0).fst =
      .okData (.obj [("videos", .arr [.str "v"]), ("channelId", .str "c")])
    ∧ Json.obj [("videos", .arr [.str "v"]), ("channelId", .str "c")] ≠
        Json.obj [("videos", .arr [.str "v"])]
    ∧ (routeCachePost [] "channels" "k2" (.obj [("channelId", .str "")]) 0).fst =
        .ok "inserted"
    ∧ (routeCacheGet
        (routeCachePost [] "channels" "k2" (.obj [("channelId", .str "")]) 0).snd
        "channels" "k2" 0).fst = .okData (.obj [])
    ∧ Json.obj [] ≠ Json.obj [("channelId", .str "")] :=
  ⟨rfl, rfl, by simp, rfl, rfl, by simp⟩

/-- A valid collection name is non-empty. -/
theorem validCollection_not_empty {coll : String}
    (h : validCollection coll = true) : (coll == "") = false := by
  by_cases hc : (coll == "") = true
  · have hc2 : coll = "" := by simpa using hc
    subst hc2
    simp [validCollection] at h
  · simpa using hc

/-- Every collection (also an unrecognized one, through the `|| 24` default)
has a positive TTL. -/
theorem cacheExpiryHours_pos (c : String) : 0 < cacheExpiryHours c := by
  unfold cacheExpiryHours
  split
  · decide
  · split
    · decide
    · split
      · decide
      · split
        · decide
        · decide

/-- The document assembled by the store route projects back to exactly its
payload part. -/
theorem projectDoc_cacheDoc (key coll : String) (e u : Nat) (data : Json) :
    projectDoc
      ([("key", Json.str key), ("collection", Json.str coll),
        ("expiresAt", Json.date e), ("updatedAt", Json.date u),
        ("cacheVersion", Json.str "1.0")] ++ serverProjectFields data) =
      .obj (serverProjectFields data) := by
  by_cases t1 : truthy (getField data "videos") = true <;>
    by_cases t2 : truthy (getField data "channelId") = true <;>
      by_cases t3 : truthy (getField data "uploadsPlaylistId") = true <;>
        by_cases t4 : truthy (getField data "categories") = true <;>
          simp [projectDoc, serverProjectFields, docGet, t1, t2, t3, t4,
            show truthy Json.null = false from rfl]

/-- The document assembled by the store route is live at write time. -/
theorem liveMatch_cacheDoc (key coll : String) (e u now : Nat) (data : Json)
    (he : now < e) :
    liveMatch key now
      ([("key", Json.str key), ("collection", Json.str coll),
        ("expiresAt", Json.date e), ("updatedAt", Json.date u),
        ("cacheVersion", Json.str "1.0")] ++ serverProjectFields data) =
      true := by
  simp [liveMatch, keyMatches, docGet, docHas, he]

/-- C7 amended: on a key with no existing record, a successful put is
answered `inserted` and an immediate get returns exactly the truthy-field
projection of the written payload — which coincides with the payload itself
precisely when the payload consists of truthy recognized fields in the
projection's field order; the exact round trip of the original claim fails
both for payloads with falsy field values and over pre-existing records,
whose unwritten fields survive the `$set` upsert. -/
theorem c7_roundtrip_fresh_key (store : Store) (coll key : String)
    (data : Json) (now : Nat)
    (hcoll : validCollection coll = true) (hkey : key ≠ "")
    (hdata : truthy data = true)
    (hfresh : ∀ d ∈ store, keyMatches d key = false)
    (hsize : ¬ MAX_DATA_SIZE < (stringify data).length) :
    (routeCachePost store coll key data now).fst = .ok "inserted"
    ∧ (routeCacheGet (routeCachePost store coll key data now).snd
        coll key now).fst = .okData (.obj (serverProjectFields data)) := by
  have hkey2 : (key == "") = false := by simpa using hkey
  have hcoll2 : (coll == "") = false := validCollection_not_empty hcoll
  have hany : store.any (fun d => keyMatches d key) = false := by
    rw [List.any_eq_false]
    intro d hd
    simp [hfresh d hd]
  have hpost : routeCachePost store coll key data now =
      (.ok "inserted", store ++
        [[("key", Json.str key), ("collection", Json.str coll),
          ("expiresAt", Json.date (now + cacheExpiryHours coll * 3600000)),
          ("updatedAt", Json.date now), ("cacheVersion", Json.str "1.0")] ++
          serverProjectFields data]) := by
    unfold routeCachePost updateOneUpsert
    simp [hcoll, hkey2, hdata, hcoll2, hsize, hany]
  have hstorenone : store.find? (liveMatch key now) = none := by
    rw [List.find?_eq_none]
    intro d hd
    unfold liveMatch
    rw [hfresh d hd]
    simp
  have hexp : now < now + cacheExpiryHours coll * 3600000 :=
    Nat.lt_add_of_pos_right
      (Nat.mul_pos (cacheExpiryHours_pos coll) (by decide))
  refine ⟨by rw [hpost], ?_⟩
  rw [hpost]
  unfold routeCacheGet findOneLive
  rw [hcoll, hkey2, List.find?_append, hstorenone,
    List.find?_cons_of_pos _ (liveMatch_cacheDoc key coll _ now now data hexp)]
  simp only [Option.none_or, Bool.not_true, Bool.false_eq_true, if_false]
  rw [projectDoc_cacheDoc]

/-- Witness for `c7_roundtrip_fresh_key`: a fresh put of
`{channelId: "c"}` into an empty `videos` collection store, read back
immediately. -/
theorem c7_roundtrip_fresh_key_witness :
    (routeCachePost [] "videos" "k" (.obj [("channelId", .str "c")]) 0).fst =
      .ok "inserted"
    ∧ (routeCacheGet
        (routeCachePost [] "videos" "k" (.obj [("channelId", .str "c")]) 0).snd
        "videos" "k" 0).fst =
      .okData (.obj (serverProjectFields (.obj [("channelId", .str "c")]))) :=
  c7_roundtrip_fresh_key [] "videos" "k" (.obj [("channelId", .str "c")]) 0
    (by decide) (by decide) rfl (fun d hd => absurd hd (List.not_mem_nil d))
    (by decide)

/-! ## C8 -/

/-- Serialized length of a comma-separated run of `n + 1` copies of the
four-character JSON string `"aa"`. -/
theorem stringifyList_replicate_aa (n : Nat) :
    (stringifyList (List.replicate (n + 1) (Json.str "aa"))).length =
      5 * n + 4 := by
  induction n with
  | zero => rfl
  | succ m ih =>
    have h1 : List.replicate (m + 1 + 1) (Json.str "aa") =
        Json.str "aa" :: Json.str "aa" :: List.replicate m (Json.str "aa") := by
      rw [List.replicate_succ, List.replicate_succ]
    have h2 : stringifyList
        (Json.str "aa" :: Json.str "aa" :: List.replicate m (Json.str "aa")) =
        stringify (Json.str "aa") ++ "," ++
          stringifyList (Json.str "aa" :: List.replicate m (Json.str "aa")) :=
      rfl
    have h3 : Json.str "aa" :: List.replicate m (Json.str "aa") =
        List.replicate (m + 1) (Json.str "aa") := (List.replicate_succ _ _).symm
    rw [h1, h2, h3, String.length_append, String.length_append, ih,
      show (stringify (Json.str "aa")).length = 4 from rfl,
      show ("," : String).length = 1 from rfl]
    omega

/-- A payload whose `videos` array serialises past the 10 MiB ceiling. -/
def bigPayload : Json :=
  .obj [("videos", .arr (List.replicate 2097150 (Json.str "aa")))]

/-- The projected `bigPayload` serialises to 10485762 characters — two past
the `MAX_DATA_SIZE` ceiling of 10485760. -/
theorem bigPayload_stringify_length :
    (stringify (clientValidate bigPayload)).length = 10485762 := by
  have h0 : stringify (clientValidate bigPayload) =
      "\x7b" ++ ("\"" ++ escapeString "videos" ++ "\":" ++
        ("[" ++ stringifyList (List.replicate 2097150 (Json.str "aa")) ++ "]")) ++
      "\x7d" := rfl
  rw [h0]
  simp only [String.length_append]
  rw [show (2097150 : Nat) = 2097149 + 1 by norm_num,
    stringifyList_replicate_aa]
  rfl

/-- C8: a put whose payload has no recognized fields left after projection is
rejected by the client layer with the validation error before any request is
issued, and a put whose serialized payload exceeds the 10 MiB ceiling is
answered 413 by the store route before the upsert; in both cases the store
is left exactly as it was. -/
theorem c8_put_rejections (key : String) (data : Json) (coll : String)
    (store : Store) (now : Nat)
    (hkey : key ≠ "") (hdata : truthy data = true) :
    (clientValidate data = .obj [] →
      cacheDataClient key data coll store now =
        (.validationError "No valid data to cache", store))
    ∧ (validCollection coll = true →
        MAX_DATA_SIZE < (stringify data).length →
        routeCachePost store coll key data now = (.payloadTooLarge, store)) := by
  have hkey2 : (key == "") = false := by simpa using hkey
  constructor
  · intro hvd
    unfold cacheDataClient
    simp [hkey2, hdata, hvd]
  · intro hcoll hsize
    unfold routeCachePost
    simp [hcoll, hkey2, hdata, validCollection_not_empty hcoll, hsize]

/-- Witness for `c8_put_rejections`: the payload `{foo: 1}` projects to
nothing and is rejected without touching the empty store, and the projected
`bigPayload` is answered 413, also without touching the store. -/
theorem c8_put_rejections_witness :
    cacheDataClient "k" (.obj [("foo", .num 1)]) "playlists" [] 0 =
      (.validationError "No valid data to cache", ([] : Store))
    ∧ routeCachePost [] "playlists" "k" (clientValidate bigPayload) 0 =
        (.payloadTooLarge, ([] : Store)) := by
  constructor
  · exact (c8_put_rejections "k" (.obj [("foo", .num 1)]) "playlists" [] 0
      (by decide) rfl).1 rfl
  · exact (c8_put_rejections "k" (clientValidate bigPayload) "playlists" [] 0
      (by decide) rfl).2 (by decide)
      (by rw [bigPayload_stringify_length]; decide)

/-! ## Helper lemmas: handle resolution -/

/-- Dropping leading whitespace keeps every non-whitespace member. -/
theorem mem_dropLeadingWs {c : Char} {l : List Char} (hc : isJsWs c = false)
    (h : c ∈ l) : c ∈ dropLeadingWs l := by
  induction l with
  | nil => cases h
  | cons a as ih =>
    simp only [dropLeadingWs]
    by_cases ha : isJsWs a = true
    · rw [if_pos ha]
      rcases List.mem_cons.mp h with h1 | h2
      · rw [h1, ha] at hc
        cases hc
      · exact ih h2
    · rw [if_neg ha]
      exact h

/-- Trimming keeps every non-whitespace member. -/
theorem mem_jsTrim {c : Char} {l : List Char} (hc : isJsWs c = false)
    (h : c ∈ l) : c ∈ jsTrim l := by
  unfold jsTrim
  rw [List.mem_reverse]
  apply mem_dropLeadingWs hc
  rw [List.mem_reverse]
  exact mem_dropLeadingWs hc h

/-- When removing the first occurrence of a character leaves none behind, it
behaves like removing every occurrence. -/
theorem removeFirstChar_eq_filter {c : Char} {l : List Char}
    (h : c ∉ removeFirstChar c l) :
    removeFirstChar c l = l.filter (fun x => x != c) := by
  induction l with
  | nil => rfl
  | cons a as ih =>
    simp only [removeFirstChar] at h ⊢
    by_cases hac : (a == c) = true
    · rw [if_pos hac] at h ⊢
      have ha : a = c := by simpa using hac
      have hall : ∀ x ∈ as, (x != c) = true := by
        intro x hx
        have hxc : x ≠ c := fun hxc => h (hxc ▸ hx)
        simpa using hxc
      rw [List.filter_cons, if_neg (by simp [ha]),
        List.filter_eq_self.mpr hall]
    · rw [if_neg hac] at h ⊢
      have hne : a ≠ c := by simpa using hac
      have h2 : c ∉ removeFirstChar c as :=
        fun hm => h (List.mem_cons_of_mem a hm)
      rw [List.filter_cons, if_pos (by simpa using hne), ih h2]

/-- A string passing the handle pattern contains no `'@'`. -/
theorem validHandle_no_at {s : List Char} (h : validHandle s = true) :
    '@' ∉ s := by
  intro hm
  unfold validHandle at h
  simp only [Bool.and_eq_true] at h
  exact absurd (List.all_eq_true.mp h.1.1 '@' hm) (by decide)

/-! ## C10 -/

/-- C10: the `/resolve-handle` endpoint issues its outbound request only to
`https://www.youtube.com/@h` where `h` is the supplied handle with any `@`
removed and trimmed and `h` matches the pattern `[a-zA-Z0-9_-]` of length 1
to 100; for every handle whose `h` fails that pattern the endpoint answers
400 without any outbound request.  (When a request is issued the handle
contained at most one `@`, so removing the first occurrence — what
`replace` does — coincides with removing every occurrence.) -/
theorem c10_resolve_handle_ssrf_guard (handle : List Char) :
    (∀ url, resolveHandleAction handle = .fetchUrl url →
      url = resolveUrlBase ++ jsTrim (handle.filter (fun x => x != '@')) ∧
      validHandle (jsTrim (handle.filter (fun x => x != '@'))) = true)
    ∧ (validHandle (jsTrim (handle.filter (fun x => x != '@'))) = false →
        resolveHandleAction handle = .badRequest) := by
  cases handle with
  | nil =>
    constructor
    · intro url hu
      simp [resolveHandleAction] at hu
    · intro _
      rfl
  | cons a as =>
    have hred : resolveHandleAction (a :: as) =
        (if validHandle (jsTrim (removeFirstChar '@' (a :: as))) then
          .fetchUrl (resolveUrlBase ++ jsTrim (removeFirstChar '@' (a :: as)))
        else .badRequest) := rfl
    by_cases hv : validHandle (jsTrim (removeFirstChar '@' (a :: as))) = true
    · have hnoAt : '@' ∉ removeFirstChar '@' (a :: as) :=
        fun hm => validHandle_no_at hv (mem_jsTrim (by decide) hm)
      have heq : removeFirstChar '@' (a :: as) =
          (a :: as).filter (fun x => x != '@') :=
        removeFirstChar_eq_filter hnoAt
      constructor
      · intro url hu
        rw [hred, if_pos hv] at hu
        injection hu with h1
        subst h1
        constructor
        · rw [heq]
        · rw [← heq]
          exact hv
      · intro hf
        rw [← heq] at hf
        rw [hv] at hf
        cases hf
    · constructor
      · intro url hu
        rw [hred, if_neg hv] at hu
        cases hu
      · intro _
        rw [hred, if_neg hv]

/-- Witness for `c10_resolve_handle_ssrf_guard`: the handle `@abc` leads to a
request on exactly `https://www.youtube.com/@abc`, and the handle `a b`
(whose cleaned form fails the pattern) is answered 400. -/
theorem c10_resolve_handle_ssrf_guard_witness :
    (resolveUrlBase ++ "abc".toList =
      resolveUrlBase ++ jsTrim (("@abc".toList).filter (fun x => x != '@')) ∧
      validHandle (jsTrim (("@abc".toList).filter (fun x => x != '@'))) = true)
    ∧ resolveHandleAction "a b".toList = .badRequest :=
  ⟨(c10_resolve_handle_ssrf_guard "@abc".toList).1
      (resolveUrlBase ++ "abc".toList) (by decide),
   (c10_resolve_handle_ssrf_guard "a b".toList).2 (by decide)⟩
